import Mathlib

set_option autoImplicit false
set_option maxRecDepth 100000

/-!
Verification of the custom_xxh3 crate (src/lib.rs): a configurable wrapper
around the xxHash3 64-bit streaming hash.  The wrapper code in lib.rs is
embedded directly.  The underlying engine (the xxhash_rust crate) is not part
of this repository; the specification treats it as an opaque, already-correct
streaming hash, so it is modelled here: its keying configuration and buffered
input are carried explicitly, and digests follow the published XXH3-64
algorithm.  All 64-bit machine integers are modelled as Nat reduced mod 2^64.
-/

namespace CustomXxh3

/-- The 64-bit modulus 2^64. -/
def M64 : Nat := 18446744073709551616

/-- Wrapping 64-bit addition. -/
def add64 (a b : Nat) : Nat := (a + b) % M64

/-- Wrapping 64-bit subtraction. -/
def sub64 (a b : Nat) : Nat := (a + (M64 - b % M64)) % M64

/-- Wrapping 64-bit multiplication. -/
def mul64 (a b : Nat) : Nat := (a * b) % M64

/-- Bitwise xor (stays below 2^64 when both arguments are). -/
def xor64 (a b : Nat) : Nat := Nat.xor a b

/-- Xor a value with itself shifted right, the xxHash xorshift step. -/
def xorshift64 (a n : Nat) : Nat := Nat.xor a (a >>> n)

/-- Left rotation of a 64-bit value. -/
def rotl64 (a n : Nat) : Nat := ((a <<< n) % M64) ||| (a >>> (64 - n))

/-- One byte of a buffer, 0 beyond the end. -/
def byteAt (bytes : List Nat) (i : Nat) : Nat := (bytes.getD i 0) % 256

/-- Little-endian 32-bit read at an offset. -/
def readLE32 (bytes : List Nat) (off : Nat) : Nat :=
  byteAt bytes off + 256 * byteAt bytes (off+1) + 65536 * byteAt bytes (off+2) +
    16777216 * byteAt bytes (off+3)

/-- Little-endian 64-bit read at an offset. -/
def readLE64 (bytes : List Nat) (off : Nat) : Nat :=
  readLE32 bytes off + 4294967296 * readLE32 bytes (off+4)

/-- The 8 little-endian bytes of a 64-bit value. -/
def toLeBytes8 (x : Nat) : List Nat :=
  [x % 256, x / 256 % 256, x / 65536 % 256, x / 16777216 % 256,
   x / 4294967296 % 256, x / 1099511627776 % 256,
   x / 281474976710656 % 256, x / 72057594037927936 % 256]

/-- Byte swap of a 64-bit value. -/
def swap64 (x : Nat) : Nat := readLE64 (toLeBytes8 x).reverse 0

/-- Byte swap of a 32-bit value. -/
def swap32 (x : Nat) : Nat :=
  x / 16777216 % 256 + 256 * (x / 65536 % 256) + 65536 * (x / 256 % 256) + 16777216 * (x % 256)

def PRIME32_1 : Nat := 0x9E3779B1
def PRIME32_2 : Nat := 0x85EBCA77
def PRIME32_3 : Nat := 0xC2B2AE3D
def PRIME64_1 : Nat := 0x9E3779B185EBCA87
def PRIME64_2 : Nat := 0xC2B2AE3D27D4EB4F
def PRIME64_3 : Nat := 0x165667B19E3779F9
def PRIME64_4 : Nat := 0x85EBCA77C2B2AE63
def PRIME64_5 : Nat := 0x27D4EB2F165667C5

/-- The classic XXH64 avalanche, used by the short XXH3 paths. -/
def xxh64_avalanche (h : Nat) : Nat :=
  let h := xorshift64 h 33
  let h := mul64 h PRIME64_2
  let h := xorshift64 h 29
  let h := mul64 h PRIME64_3
  xorshift64 h 32

/-- The XXH3 avalanche. -/
def xxh3_avalanche (h : Nat) : Nat :=
  let h := xorshift64 h 37
  let h := mul64 h 0x165667919E3779F9
  xorshift64 h 32

/-- The rrmxmx finalizer used by the 4-to-8-byte path. -/
def xxh3_rrmxmx (h len : Nat) : Nat :=
  let h := xor64 h (xor64 (rotl64 h 49) (rotl64 h 24))
  let h := mul64 h 0x9FB21C651E98DF25
  let h := xor64 h (add64 (h >>> 35) len)
  let h := mul64 h 0x9FB21C651E98DF25
  xorshift64 h 28

/-- 128-bit multiply folded to 64 bits by xoring the two halves. -/
def mul128_fold64 (a b : Nat) : Nat :=
  let p := a * b
  Nat.xor (p % M64) (p / M64)

/-- The 192-byte built-in XXH3 secret (kSecret of the published algorithm). -/
def kSecret : List Nat :=
  [0xb8, 0xfe, 0x6c, 0x39, 0x23, 0xa4, 0x4b, 0xbe, 0x7c, 0x01, 0x81, 0x2c, 0xf7, 0x21, 0xad, 0x1c,
   0xde, 0xd4, 0x6d, 0xe9, 0x83, 0x90, 0x97, 0xdb, 0x72, 0x40, 0xa4, 0xa4, 0xb7, 0xb3, 0x67, 0x1f,
   0xcb, 0x79, 0xe6, 0x4e, 0xcc, 0xc0, 0xe5, 0x78, 0x82, 0x5a, 0xd0, 0x7d, 0xcc, 0xff, 0x72, 0x21,
   0xb8, 0x08, 0x46, 0x74, 0xf7, 0x43, 0x24, 0x8e, 0xe0, 0x35, 0x90, 0xe6, 0x81, 0x3a, 0x26, 0x4c,
   0x3c, 0x28, 0x52, 0xbb, 0x91, 0xc3, 0x00, 0xcb, 0x88, 0xd0, 0x65, 0x8b, 0x1b, 0x53, 0x2e, 0xa3,
   0x71, 0x64, 0x48, 0x97, 0xa2, 0x0d, 0xf9, 0x4e, 0x38, 0x19, 0xef, 0x46, 0xa9, 0xde, 0xac, 0xd8,
   0xa8, 0xfa, 0x76, 0x3f, 0xe3, 0x9c, 0x34, 0x3f, 0xf9, 0xdc, 0xbb, 0xc7, 0xc7, 0x0b, 0x4f, 0x1d,
   0x8a, 0x51, 0xe0, 0x4b, 0xcd, 0xb4, 0x59, 0x31, 0xc8, 0x9f, 0x7e, 0xc9, 0xd9, 0x78, 0x73, 0x64,
   0xea, 0xc5, 0xac, 0x83, 0x34, 0xd3, 0xeb, 0xc3, 0xc5, 0x81, 0xa0, 0xff, 0xfa, 0x13, 0x63, 0xeb,
   0x17, 0x0d, 0xdd, 0x51, 0xb7, 0xf0, 0xda, 0x49, 0xd3, 0x16, 0x55, 0x26, 0x29, 0xd4, 0x68, 0x9e,
   0x2b, 0x16, 0xbe, 0x58, 0x7d, 0x47, 0xa1, 0xfc, 0x8f, 0xf8, 0xb8, 0xd1, 0x7a, 0xd0, 0x31, 0xce,
   0x45, 0xcb, 0x3a, 0x8f, 0x95, 0x16, 0x04, 0x28, 0xaf, 0xd7, 0xfb, 0xca, 0xbb, 0x4b, 0x40, 0x7e]

/-- Modelled from the spec: const_custom_default_secret of the xxhash_rust
crate (external engine, source not in this repository).  Derives a 192-byte
secret from a seed by adding/subtracting the seed to the two halves of each
16-byte block of the built-in secret, per the published XXH3 algorithm. -/
def const_custom_default_secret (seed : Nat) : List Nat :=
  ((List.range 12).map (fun i =>
    toLeBytes8 (add64 (readLE64 kSecret (16*i)) seed) ++
    toLeBytes8 (sub64 (readLE64 kSecret (16*i+8)) seed))).flatten

/-- The constant seed the crate derives its Secret Table from (lib.rs line 21). -/
def XXH3_SECRET_SEED : Nat := 0xDEADBEEFFEEDF00D

/-- The required secret length (lib.rs line 20). -/
def XXH3_SECRET_SIZE : Nat := 192

/-- The Secret Table: the custom secret of the crate (lib.rs line 22). -/
def XXH3_SECRET : List Nat := const_custom_default_secret XXH3_SECRET_SEED

/-- XXH3 for empty input. -/
def xxh3_len_0 (secret : List Nat) (seed : Nat) : Nat :=
  xxh64_avalanche (xor64 seed (xor64 (readLE64 secret 56) (readLE64 secret 64)))

/-- XXH3 for inputs of 1 to 3 bytes. -/
def xxh3_len_1to3 (secret : List Nat) (seed : Nat) (input : List Nat) : Nat :=
  let len := input.length
  let c1 := byteAt input 0
  let c2 := byteAt input (len / 2)
  let c3 := byteAt input (len - 1)
  let combined := c1 * 65536 + c2 * 16777216 + c3 + len * 256
  let bitflip := add64 (xor64 (readLE32 secret 0) (readLE32 secret 4)) seed
  xxh64_avalanche (xor64 combined bitflip)

/-- XXH3 for inputs of 4 to 8 bytes. -/
def xxh3_len_4to8 (secret : List Nat) (seed : Nat) (input : List Nat) : Nat :=
  let len := input.length
  let seed := xor64 seed ((swap32 (seed % 4294967296)) * 4294967296)
  let input1 := readLE32 input 0
  let input2 := readLE32 input (len - 4)
  let bitflip := sub64 (xor64 (readLE64 secret 8) (readLE64 secret 16)) seed
  let input64 := input2 + input1 * 4294967296
  xxh3_rrmxmx (xor64 input64 bitflip) len

/-- XXH3 for inputs of 9 to 16 bytes. -/
def xxh3_len_9to16 (secret : List Nat) (seed : Nat) (input : List Nat) : Nat :=
  let len := input.length
  let bitflip1 := add64 (xor64 (readLE64 secret 24) (readLE64 secret 32)) seed
  let bitflip2 := sub64 (xor64 (readLE64 secret 40) (readLE64 secret 48)) seed
  let input_lo := xor64 (readLE64 input 0) bitflip1
  let input_hi := xor64 (readLE64 input (len - 8)) bitflip2
  let acc := add64 (add64 (add64 len (swap64 input_lo)) input_hi)
    (mul128_fold64 input_lo input_hi)
  xxh3_avalanche acc

/-- The 16-byte mixer of the midrange XXH3 paths. -/
def mix16B (secret : List Nat) (seed : Nat) (input : List Nat) (inOff secOff : Nat) : Nat :=
  mul128_fold64
    (xor64 (readLE64 input inOff) (add64 (readLE64 secret secOff) seed))
    (xor64 (readLE64 input (inOff+8)) (sub64 (readLE64 secret (secOff+8)) seed))

/-- XXH3 for inputs of 17 to 128 bytes. -/
def xxh3_len_17to128 (secret : List Nat) (seed : Nat) (input : List Nat) : Nat :=
  let len := input.length
  let acc := mul64 len PRIME64_1
  let acc :=
    if 32 < len then
      let acc :=
        if 64 < len then
          let acc :=
            if 96 < len then
              add64 (add64 acc (mix16B secret seed input 48 96))
                (mix16B secret seed input (len - 64) 112)
            else acc
          add64 (add64 acc (mix16B secret seed input 32 64))
            (mix16B secret seed input (len - 48) 80)
        else acc
      add64 (add64 acc (mix16B secret seed input 16 32))
        (mix16B secret seed input (len - 32) 48)
    else acc
  let acc := add64 (add64 acc (mix16B secret seed input 0 0))
    (mix16B secret seed input (len - 16) 16)
  xxh3_avalanche acc

/-- XXH3 for inputs of 129 to 240 bytes. -/
def xxh3_len_129to240 (secret : List Nat) (seed : Nat) (input : List Nat) : Nat :=
  let len := input.length
  let nbRounds := len / 16
  let acc := (List.range 8).foldl
    (fun a i => add64 a (mix16B secret seed input (16*i) (16*i)))
    (mul64 len PRIME64_1)
  let acc := xxh3_avalanche acc
  let acc := (List.range (nbRounds - 8)).foldl
    (fun a j => add64 a (mix16B secret seed input (16*(j+8)) (16*j + 3))) acc
  let acc := add64 acc (mix16B secret seed input (len - 16) 119)
  xxh3_avalanche acc

/-- The initial accumulator vector of the long-input path. -/
def initAcc : List Nat :=
  [PRIME32_3, PRIME64_1, PRIME64_2, PRIME64_3, PRIME64_4, PRIME32_2, PRIME64_5, PRIME32_1]

/-- One 64-byte stripe accumulation of the long-input path. -/
def accum512 (input secret : List Nat) (inOff secOff : Nat) (acc : List Nat) : List Nat :=
  (List.range 8).foldl (fun a i =>
    let dv := readLE64 input (inOff + 8*i)
    let dk := xor64 dv (readLE64 secret (secOff + 8*i))
    let a := a.set (i ^^^ 1) (add64 (a.getD (i ^^^ 1) 0) dv)
    a.set i (add64 (a.getD i 0) (mul64 (dk % 4294967296) (dk / 4294967296)))) acc

/-- Accumulator scrambling between blocks of the long-input path. -/
def scrambleAcc (secret : List Nat) (secOff : Nat) (acc : List Nat) : List Nat :=
  (List.range 8).foldl (fun a i =>
    let v := a.getD i 0
    let v := xor64 (xorshift64 v 47) (readLE64 secret (secOff + 8*i))
    a.set i (mul64 v PRIME32_1)) acc

/-- A run of stripes, advancing the secret by 8 bytes per stripe. -/
def accumStripes (input secret : List Nat) (inOff nbStripes : Nat) (acc : List Nat) : List Nat :=
  (List.range nbStripes).foldl
    (fun a n => accum512 input secret (inOff + 64*n) (8*n) a) acc

/-- Final merge of two adjacent accumulators. -/
def mix2Accs (acc : List Nat) (i : Nat) (secret : List Nat) (secOff : Nat) : Nat :=
  mul128_fold64
    (xor64 (acc.getD i 0) (readLE64 secret secOff))
    (xor64 (acc.getD (i+1) 0) (readLE64 secret (secOff+8)))

/-- Merging the 8 accumulators into the final 64-bit digest. -/
def mergeAccs (acc secret : List Nat) (secOff start : Nat) : Nat :=
  xxh3_avalanche ((List.range 4).foldl
    (fun r i => add64 r (mix2Accs acc (2*i) secret (secOff + 16*i))) start)

/-- XXH3 for inputs longer than 240 bytes. -/
def xxh3_hashLong (secret input : List Nat) : Nat :=
  let len := input.length
  let secretSize := secret.length
  let nbStripesPerBlock := (secretSize - 64) / 8
  let blockLen := 64 * nbStripesPerBlock
  let nbBlocks := (len - 1) / blockLen
  let acc := (List.range nbBlocks).foldl (fun a n =>
      scrambleAcc secret (secretSize - 64) (accumStripes input secret (n * blockLen) nbStripesPerBlock a))
    initAcc
  let nbStripes := ((len - 1) - blockLen * nbBlocks) / 64
  let acc := accumStripes input secret (nbBlocks * blockLen) nbStripes acc
  let acc := accum512 input secret (len - 64) (secretSize - 64 - 7) acc
  mergeAccs acc secret 11 (mul64 len PRIME64_1)

/-- Modelled from the spec: the XXH3-64 one-shot dispatch of the external
engine crate (source not in this repository), following the published
algorithm.  A non-zero seed on the long path switches to the seed-derived
secret, as the published algorithm does. -/
def xxh3_64_internal (secret : List Nat) (seed : Nat) (input : List Nat) : Nat :=
  let len := input.length
  if len = 0 then xxh3_len_0 secret seed
  else if len ≤ 3 then xxh3_len_1to3 secret seed input
  else if len ≤ 8 then xxh3_len_4to8 secret seed input
  else if len ≤ 16 then xxh3_len_9to16 secret seed input
  else if len ≤ 128 then xxh3_len_17to128 secret seed input
  else if len ≤ 240 then xxh3_len_129to240 secret seed input
  else if seed = 0 then xxh3_hashLong secret input
  else xxh3_hashLong (const_custom_default_secret seed) input

/-- Modelled from the spec: the oneshot xxh3_64 of the engine crate
(built-in default keying, seed 0). -/
def xxh3_64 (input : List Nat) : Nat := xxh3_64_internal kSecret 0 input

/-- Modelled from the spec: the oneshot xxh3_64_with_secret of the engine
crate (custom secret, seed 0). -/
def xxh3_64_with_secret (input secret : List Nat) : Nat := xxh3_64_internal secret 0 input

example : xxh3_64 [] = 0x2D06800538D394C2 := by decide

/-- Modelled from the spec: the streaming Xxh3 engine of the external
xxhash_rust crate (source not in this repository).  The spec treats it as an
opaque, already-correct, boundary-insensitive streaming hash; its observable
state is the keying configuration it was built with (a 192-byte secret and a
seed) together with the byte stream accumulated so far. -/
structure Xxh3 where
  secret : List Nat
  seed : Nat
  acc : List Nat
deriving DecidableEq

/-- Modelled from the spec: Xxh3Builder of the engine crate.  It holds a seed
(default 0) and a secret (default the built-in kSecret); build produces a
fresh engine with that configuration and no accumulated input. -/
structure Xxh3Builder where
  seed : Nat
  secret : List Nat
deriving DecidableEq

def Xxh3Builder.new : Xxh3Builder := { seed := 0, secret := kSecret }

def Xxh3Builder.with_seed (b : Xxh3Builder) (seed : Nat) : Xxh3Builder := { b with seed := seed }

def Xxh3Builder.with_secret (b : Xxh3Builder) (secret : List Nat) : Xxh3Builder :=
  { b with secret := secret }

def Xxh3Builder.build (b : Xxh3Builder) : Xxh3 := { secret := b.secret, seed := b.seed, acc := [] }

/-- Engine write: appends bytes to the accumulated stream. -/
def Xxh3.write (e : Xxh3) (bytes : List Nat) : Xxh3 := { e with acc := e.acc ++ bytes }

/-- Modelled from the spec: the engine digest.  For short accumulated input a
non-zero seed selects the seeded variant over the built-in secret, otherwise
the stored secret with seed 0 is used; long input always uses the stored
secret, per the published streaming XXH3 algorithm. -/
def Xxh3.finish (e : Xxh3) : Nat :=
  if e.acc.length ≤ 240 then
    if e.seed = 0 then xxh3_64_internal e.secret 0 e.acc
    else xxh3_64_internal kSecret e.seed e.acc
  else xxh3_hashLong e.secret e.acc

/-- Engine reset (modelled from the spec): discards the accumulated input and
keeps the keying configuration the engine was built with. -/
def Xxh3.reset (e : Xxh3) : Xxh3 := { e with acc := [] }

/-- The error type of lib.rs (lines 24 to 27). -/
inductive Xxh3Error where
  | invalidSecretSize (n : Nat)
deriving DecidableEq

/-- build_xxh3_with_seed (lib.rs lines 30 to 33). -/
def build_xxh3_with_seed (seed : Nat) : Xxh3 := (Xxh3Builder.new.with_seed seed).build

/-- build_xxh3_with_secret (lib.rs lines 37 to 40). -/
def build_xxh3_with_secret (secret : List Nat) : Xxh3 := (Xxh3Builder.new.with_secret secret).build

/-- build_xxh3_with_secret_and_seed (lib.rs lines 44 to 49). -/
def build_xxh3_with_secret_and_seed (secret : List Nat) (seed : Nat) : Xxh3 :=
  ((Xxh3Builder.new.with_secret secret).with_seed seed).build

/-- build_xxh3_with_custom_secret (lib.rs lines 52 to 55). -/
def build_xxh3_with_custom_secret : Xxh3 := (Xxh3Builder.new.with_secret XXH3_SECRET).build

/-- The hasher state of lib.rs (lines 71 to 76). -/
structure CustomXxh3Hasher where
  xxh : Xxh3
  seed : Nat
  custom_secret : Option (List Nat)
deriving DecidableEq

/-- validate_secret_size (lib.rs lines 368 to 373). -/
def validate_secret_size (secret : List Nat) : Option (Except Xxh3Error CustomXxh3Hasher) :=
  if secret.length ≠ XXH3_SECRET_SIZE then
    some (Except.error (Xxh3Error.invalidSecretSize secret.length))
  else none

/-- CustomXxh3Hasher new (lib.rs lines 80 to 86). -/
def CustomXxh3Hasher.new (seed : Nat) : CustomXxh3Hasher :=
  { xxh := build_xxh3_with_seed seed, seed := seed, custom_secret := none }

/-- CustomXxh3Hasher new_xxh3_defaults (lib.rs lines 89 to 95). -/
def CustomXxh3Hasher.new_xxh3_defaults : CustomXxh3Hasher :=
  { xxh := Xxh3Builder.new.build, seed := 0, custom_secret := none }

/-- CustomXxh3Hasher with_secret (lib.rs lines 98 to 109).  The source copies
the validated slice into a fixed array; when validation passes the copy
equals the slice, embedded as the list itself. -/
def CustomXxh3Hasher.with_secret (secret : List Nat) : Except Xxh3Error CustomXxh3Hasher :=
  match validate_secret_size secret with
  | some value => value
  | none =>
    Except.ok { xxh := build_xxh3_with_secret secret, seed := 0, custom_secret := some secret }

/-- CustomXxh3Hasher with_secret_and_seed (lib.rs lines 112 to 123). -/
def CustomXxh3Hasher.with_secret_and_seed (secret : List Nat) (seed : Nat) :
    Except Xxh3Error CustomXxh3Hasher :=
  match validate_secret_size secret with
  | some value => value
  | none =>
    Except.ok { xxh := build_xxh3_with_secret_and_seed secret seed, seed := seed,
                custom_secret := some secret }

/-- The secret accessor (lib.rs lines 131 to 133). -/
def CustomXxh3Hasher.secret (h : CustomXxh3Hasher) : Option (List Nat) := h.custom_secret

/-- Hasher write (lib.rs lines 183 to 185): delegates to the engine. -/
def CustomXxh3Hasher.write (h : CustomXxh3Hasher) (bytes : List Nat) : CustomXxh3Hasher :=
  { h with xxh := h.xxh.write bytes }

/-- Hasher finish (lib.rs lines 195 to 197): delegates to the engine,
mutating nothing. -/
def CustomXxh3Hasher.finish (h : CustomXxh3Hasher) : Nat := h.xxh.finish

/-- reset (lib.rs lines 137 to 141): returns the current finish value and
resets the engine; the metadata fields are untouched. -/
def CustomXxh3Hasher.reset (h : CustomXxh3Hasher) : Nat × CustomXxh3Hasher :=
  (h.finish, { h with xxh := h.xxh.reset })

/-- change_seed (lib.rs lines 146 to 152).  The unwrap in the source cannot
fail because any stored secret passed validation; the error branch here
returns the hasher unchanged and is unreachable for such states. -/
def CustomXxh3Hasher.change_seed (h : CustomXxh3Hasher) (seed : Nat) : CustomXxh3Hasher :=
  match h.secret with
  | some sec =>
    match CustomXxh3Hasher.with_secret_and_seed sec seed with
    | Except.ok h2 => h2
    | Except.error _ => h
  | none => CustomXxh3Hasher.new seed

/-- Modelled from the spec: the std Hasher write_u64 default method used by
combine, which writes the 8-byte machine representation of the value
(little-endian on the targets at hand). -/
def CustomXxh3Hasher.write_u64 (h : CustomXxh3Hasher) (v : Nat) : CustomXxh3Hasher :=
  h.write (toLeBytes8 v)

/-- combine (lib.rs lines 155 to 157): delegates to write_u64. -/
def CustomXxh3Hasher.combine (h : CustomXxh3Hasher) (other : Nat) : CustomXxh3Hasher :=
  h.write_u64 other

/-- The Default impl (lib.rs lines 170 to 179): the engine is keyed with the
Secret Table XXH3_SECRET, the recorded seed is 0 and no custom_secret
metadata is stored. -/
def CustomXxh3Hasher.default : CustomXxh3Hasher :=
  { xxh := build_xxh3_with_secret XXH3_SECRET, seed := 0, custom_secret := none }

/-- The BuildHasher impl (lib.rs lines 200 to 207): always returns a
default-configured hasher, whatever the receiver is. -/
def CustomXxh3Hasher.build_hasher (_h : CustomXxh3Hasher) : CustomXxh3Hasher :=
  CustomXxh3Hasher.default

/-- Modelled from the spec: std RandomState (external).  It samples process
entropy once at construction; afterwards every hasher it builds is a
deterministic function of that entropy.  Only this per-instance determinism
is relied on; the mixing function is an abstract deterministic stand-in. -/
structure RandomState where
  k0 : Nat
  k1 : Nat
deriving DecidableEq

/-- Modelled from the spec: the 64-bit digest the std default hasher of a
RandomState instance produces for a byte buffer; deterministic in the
instance keys and the buffer. -/
def RandomState.hash64 (rs : RandomState) (bytes : List Nat) : Nat :=
  bytes.foldl (fun a b => mul64 (xor64 a (b % 256)) PRIME64_2)
    (xor64 rs.k0 (mul64 rs.k1 PRIME64_1))

/-- RandomXxh3Builder (lib.rs line 284): wraps one RandomState instance. -/
structure RandomXxh3Builder where
  state : RandomState
deriving DecidableEq

/-- RandomXxh3Builder build_hasher (lib.rs lines 291 to 299): hashes a fixed
64-byte zero buffer with the stored RandomState to derive a seed, then builds
a seed-only hasher with that seed. -/
def RandomXxh3Builder.build_hasher (b : RandomXxh3Builder) : CustomXxh3Hasher :=
  CustomXxh3Hasher.new (b.state.hash64 (List.replicate 64 0))

/-- hash_bytes (lib.rs lines 337 to 339): oneshot with the Secret Table. -/
def hash_bytes (bytes : List Nat) : Nat := xxh3_64_with_secret bytes XXH3_SECRET

/-- hash_bytes_default (lib.rs lines 343 to 345): oneshot with default keying. -/
def hash_bytes_default (bytes : List Nat) : Nat := xxh3_64 bytes

/-- The engine keying described by the metadata of a hasher: the stored
custom secret with the stored seed when one is recorded, otherwise the
seed-only construction with the stored seed. -/
def metadataEngine (seed : Nat) (cs : Option (List Nat)) : Xxh3 :=
  match cs with
  | some sec => build_xxh3_with_secret_and_seed sec seed
  | none => build_xxh3_with_seed seed

/-- The metadata of a hasher reflects the keying of its current engine
instance. -/
def metadataReflects (h : CustomXxh3Hasher) : Prop :=
  h.xxh.secret = (metadataEngine h.seed h.custom_secret).secret ∧
  h.xxh.seed = (metadataEngine h.seed h.custom_secret).seed

instance (h : CustomXxh3Hasher) : Decidable (metadataReflects h) := by
  unfold metadataReflects; infer_instance

/-- The bytes of the test buffer (Hello, world!). -/
def helloWorld : List Nat := [72, 101, 108, 108, 111, 44, 32, 119, 111, 114, 108, 100, 33]

/-- A 192-byte secret used as a concrete valid input in witnesses. -/
def secret192 : List Nat := List.replicate 192 1

/-- Claim C1: with_secret, and with_secret_and_seed for every seed, return
the error invalidSecretSize carrying exactly the length of the given slice
iff that length is not 192; at length 192 they succeed, copying the secret
into the metadata and recording seed 0 (resp. the given seed).  Failure
carries only the error value, never a hasher. -/
theorem c1_secret_size_validation (s : List Nat) (seed : Nat) :
    (CustomXxh3Hasher.with_secret s =
        Except.error (Xxh3Error.invalidSecretSize s.length) ↔ s.length ≠ 192) ∧
    (CustomXxh3Hasher.with_secret_and_seed s seed =
        Except.error (Xxh3Error.invalidSecretSize s.length) ↔ s.length ≠ 192) ∧
    (s.length = 192 →
      CustomXxh3Hasher.with_secret s =
        Except.ok { xxh := build_xxh3_with_secret s, seed := 0, custom_secret := some s } ∧
      CustomXxh3Hasher.with_secret_and_seed s seed =
        Except.ok { xxh := build_xxh3_with_secret_and_seed s seed, seed := seed,
                    custom_secret := some s }) := by
  by_cases hl : s.length = 192 <;>
    simp [CustomXxh3Hasher.with_secret, CustomXxh3Hasher.with_secret_and_seed,
      validate_secret_size, XXH3_SECRET_SIZE, hl]

/-- Witness for claim C1 at a concrete 192-byte secret and seed 7. -/
theorem c1_secret_size_validation_witness :
    CustomXxh3Hasher.with_secret secret192 =
      Except.ok { xxh := build_xxh3_with_secret secret192, seed := 0,
                  custom_secret := some secret192 } ∧
    CustomXxh3Hasher.with_secret_and_seed secret192 7 =
      Except.ok { xxh := build_xxh3_with_secret_and_seed secret192 7, seed := 7,
                  custom_secret := some secret192 } :=
  (c1_secret_size_validation secret192 7).2.2 (by decide)

/-- Claim C2 counterexample: change_seed on a default-constructed hasher does
not preserve the Secret-Table provenance that was in effect: the rebuilt
engine is keyed with the built-in default secret instead of XXH3_SECRET. -/
theorem c2_change_seed_counterexample :
    (CustomXxh3Hasher.default.change_seed 5).xxh.secret ≠
      CustomXxh3Hasher.default.xxh.secret := by decide

/-- Claim C2 amended: change_seed discards all accumulated input and rebuilds
the hasher with the new seed, preserving the custom-secret provenance exactly
when one is recorded in the metadata; when none is recorded (seed-only,
library-defaults, and also Secret-Table default construction, whose keying is
not recorded) it rebuilds with seed-only keying. -/
theorem c2_change_seed_provenance (h : CustomXxh3Hasher) (s2 : Nat) :
    (h.custom_secret = none → h.change_seed s2 = CustomXxh3Hasher.new s2) ∧
    (∀ sec, h.custom_secret = some sec → sec.length = 192 →
      h.change_seed s2 =
        { xxh := build_xxh3_with_secret_and_seed sec s2, seed := s2,
          custom_secret := some sec }) := by
  constructor
  · intro hn
    simp [CustomXxh3Hasher.change_seed, CustomXxh3Hasher.secret, hn]
  · intro sec hs hlen
    simp [CustomXxh3Hasher.change_seed, CustomXxh3Hasher.secret, hs,
      CustomXxh3Hasher.with_secret_and_seed, validate_secret_size, XXH3_SECRET_SIZE, hlen]

/-- Witness for claim C2: the seed-only branch at a concrete seeded hasher
and the custom-secret branch at a concrete secret-keyed hasher. -/
theorem c2_change_seed_provenance_witness :
    (CustomXxh3Hasher.new 3).change_seed 5 = CustomXxh3Hasher.new 5 ∧
    ({ xxh := build_xxh3_with_secret_and_seed secret192 4, seed := 4,
       custom_secret := some secret192 } : CustomXxh3Hasher).change_seed 5 =
      { xxh := build_xxh3_with_secret_and_seed secret192 5, seed := 5,
        custom_secret := some secret192 } :=
  ⟨(c2_change_seed_provenance (CustomXxh3Hasher.new 3) 5).1 rfl,
   (c2_change_seed_provenance
      { xxh := build_xxh3_with_secret_and_seed secret192 4, seed := 4,
        custom_secret := some secret192 } 5).2 secret192 rfl (by decide)⟩

/-- Claim C3 counterexample: the default-constructed hasher is keyed with the
Secret Table yet records seed 0, not a non-zero seed. -/
theorem c3_default_seed_counterexample :
    CustomXxh3Hasher.default.xxh.secret = XXH3_SECRET ∧
    CustomXxh3Hasher.default.seed = 0 :=
  ⟨rfl, rfl⟩

/-- Claim C3 amended: default construction builds a hasher keyed with the
built-in Secret Table and records seed 0, like every other constructor that
takes no explicit seed; what is non-zero on this path is the constant the
Secret Table is derived from, not the recorded seed. -/
theorem c3_default_construction :
    CustomXxh3Hasher.default.xxh = build_xxh3_with_secret XXH3_SECRET ∧
    CustomXxh3Hasher.default.seed = 0 ∧
    XXH3_SECRET = const_custom_default_secret XXH3_SECRET_SEED ∧
    XXH3_SECRET_SEED ≠ 0 :=
  ⟨rfl, rfl, rfl, by decide⟩

/-- Claim C4: on a hasher in its freshly constructed state (no accumulated
engine input, any configuration), writing b and calling reset returns the
digest of b and restores the hasher to exactly its pre-write state, seed and
custom-secret metadata unchanged, so writing b again and finishing yields the
same digest the reset returned. -/
theorem c4_reset_roundtrip (h : CustomXxh3Hasher) (b : List Nat)
    (hfresh : h.xxh.acc = []) :
    (h.write b).reset = ((h.write b).finish, h) ∧
    ((h.write b).reset.2.write b).finish = (h.write b).reset.1 := by
  obtain ⟨⟨sec, sd, acc⟩, s, cs⟩ := h
  simp only [List.nil_eq] at hfresh
  subst hfresh
  simp [CustomXxh3Hasher.write, Xxh3.write, CustomXxh3Hasher.reset, Xxh3.reset,
    CustomXxh3Hasher.finish]

/-- Witness for claim C4 at the default-constructed hasher and the concrete
test buffer. -/
theorem c4_reset_roundtrip_witness :
    (CustomXxh3Hasher.default.write helloWorld).reset =
      ((CustomXxh3Hasher.default.write helloWorld).finish, CustomXxh3Hasher.default) ∧
    ((CustomXxh3Hasher.default.write helloWorld).reset.2.write helloWorld).finish =
      (CustomXxh3Hasher.default.write helloWorld).reset.1 :=
  c4_reset_roundtrip CustomXxh3Hasher.default helloWorld rfl

/-- Claim C5: writes are concatenation-invariant: writing a then b leaves the
hasher in the same state as writing the concatenation of a and b in one call,
so the finish digest depends only on the concatenated byte stream, not on
write-call boundaries. -/
theorem c5_concat_invariance (h : CustomXxh3Hasher) (a b : List Nat) :
    (h.write a).write b = h.write (a ++ b) ∧
    ((h.write a).write b).finish = (h.write (a ++ b)).finish := by
  have hs : (h.write a).write b = h.write (a ++ b) := by
    simp [CustomXxh3Hasher.write, Xxh3.write]
  exact ⟨hs, congrArg CustomXxh3Hasher.finish hs⟩

/-- Claim C6: the Secret-Table-keyed oneshot and the default-keyed oneshot
are distinct functions: they disagree on the concrete buffer Hello, world!,
so an input separating hash_bytes from hash_bytes_default exists. -/
theorem c6_keying_separation :
    hash_bytes helloWorld ≠ hash_bytes_default helloWorld ∧
    ∃ b : List Nat, hash_bytes b ≠ hash_bytes_default b :=
  ⟨by decide, helloWorld, by decide⟩

/-- Claim C7: a single randomized builder derives one seed from its stored
entropy and every hasher it produces is the seed-only hasher built from that
seed; hence any two produced hashers share the same seed and equal byte
inputs fed to each yield equal digests. -/
theorem c7_random_builder_consistency (b : RandomXxh3Builder)
    (h1 h2 : CustomXxh3Hasher)
    (e1 : h1 = b.build_hasher) (e2 : h2 = b.build_hasher) :
    h1 = CustomXxh3Hasher.new (b.state.hash64 (List.replicate 64 0)) ∧
    h1.seed = h2.seed ∧
    ∀ input : List Nat, (h1.write input).finish = (h2.write input).finish := by
  subst e1; subst e2
  exact ⟨rfl, rfl, fun _ => rfl⟩

/-- Witness for claim C7 at a concrete randomized builder instance. -/
theorem c7_random_builder_consistency_witness :
    RandomXxh3Builder.build_hasher ⟨⟨11, 22⟩⟩ =
      CustomXxh3Hasher.new ((RandomState.mk 11 22).hash64 (List.replicate 64 0)) ∧
    (RandomXxh3Builder.build_hasher ⟨⟨11, 22⟩⟩).seed =
      (RandomXxh3Builder.build_hasher ⟨⟨11, 22⟩⟩).seed ∧
    ∀ input : List Nat,
      ((RandomXxh3Builder.build_hasher ⟨⟨11, 22⟩⟩).write input).finish =
        ((RandomXxh3Builder.build_hasher ⟨⟨11, 22⟩⟩).write input).finish :=
  c7_random_builder_consistency ⟨⟨11, 22⟩⟩ _ _ rfl rfl

/-- Claim C8: combine is exactly the write of the 8-byte representation of
the value: the post-combine hasher state equals the post-write state, hence
every subsequent finish agrees. -/
theorem c8_combine_is_write (h : CustomXxh3Hasher) (other : Nat) :
    h.combine other = h.write (toLeBytes8 other) ∧
    (h.combine other).finish = (h.write (toLeBytes8 other)).finish :=
  ⟨rfl, rfl⟩

/-- Claim C9 counterexample: the default-constructed hasher already violates
the metadata invariant: its engine is keyed with the Secret Table XXH3_SECRET
while its metadata (seed 0, no custom secret) describes seed-only default
keying. -/
theorem c9_invariant_counterexample :
    ¬ metadataReflects CustomXxh3Hasher.default := by decide

/-- Claim C9 amended: the seed and custom-secret metadata reflect the keying
of the current engine for hashers created by the four explicit constructors,
and the property is preserved by write, reset and change_seed, engine and
metadata being replaced together; default construction is the exception, its
Secret-Table keying not being recorded in the metadata. -/
theorem c9_metadata_invariant :
    (∀ s, metadataReflects (CustomXxh3Hasher.new s)) ∧
    metadataReflects CustomXxh3Hasher.new_xxh3_defaults ∧
    (∀ sec h, CustomXxh3Hasher.with_secret sec = Except.ok h → metadataReflects h) ∧
    (∀ sec seed h, CustomXxh3Hasher.with_secret_and_seed sec seed = Except.ok h →
      metadataReflects h) ∧
    (∀ h bytes, metadataReflects h → metadataReflects (h.write bytes)) ∧
    (∀ h, metadataReflects h → metadataReflects (h.reset).2) ∧
    (∀ h s2, metadataReflects h → metadataReflects (h.change_seed s2)) := by
  refine ⟨fun s => ⟨rfl, rfl⟩, ⟨rfl, rfl⟩, ?_, ?_, ?_, ?_, ?_⟩
  · intro sec h hok
    unfold CustomXxh3Hasher.with_secret validate_secret_size at hok
    by_cases hl : sec.length = XXH3_SECRET_SIZE
    · simp [hl] at hok
      subst hok
      exact ⟨rfl, rfl⟩
    · simp [hl] at hok
  · intro sec seed h hok
    unfold CustomXxh3Hasher.with_secret_and_seed validate_secret_size at hok
    by_cases hl : sec.length = XXH3_SECRET_SIZE
    · simp [hl] at hok
      subst hok
      exact ⟨rfl, rfl⟩
    · simp [hl] at hok
  · intro h bytes hr
    exact hr
  · intro h hr
    exact hr
  · intro h s2 hr
    unfold CustomXxh3Hasher.change_seed
    cases hcs : h.secret with
    | none => exact ⟨rfl, rfl⟩
    | some sec =>
      unfold CustomXxh3Hasher.with_secret_and_seed validate_secret_size
      by_cases hl : sec.length = XXH3_SECRET_SIZE
      · simp [hl]
        exact ⟨rfl, rfl⟩
      · simp [hl]
        exact hr

/-- Witness for claim C9: the preservation parts applied at concrete hashers
satisfying the invariant. -/
theorem c9_metadata_invariant_witness :
    metadataReflects ((CustomXxh3Hasher.new 7).change_seed 9) ∧
    metadataReflects ((CustomXxh3Hasher.new 7).write helloWorld) ∧
    metadataReflects ((CustomXxh3Hasher.new 7).reset).2 :=
  ⟨c9_metadata_invariant.2.2.2.2.2.2 (CustomXxh3Hasher.new 7) 9 (by decide),
   c9_metadata_invariant.2.2.2.2.1 (CustomXxh3Hasher.new 7) helloWorld (by decide),
   c9_metadata_invariant.2.2.2.2.2.1 (CustomXxh3Hasher.new 7) (by decide)⟩

/-- Claim C10: the BuildHasher impl on CustomXxh3Hasher ignores the receiver
configuration entirely: build_hasher always returns the default-configured
hasher, keyed with the Secret Table and recording seed 0, whatever seed or
custom secret the receiver holds. -/
theorem c10_build_hasher_discards_config (h : CustomXxh3Hasher) :
    h.build_hasher = CustomXxh3Hasher.default ∧
    (h.build_hasher).xxh.secret = XXH3_SECRET ∧
    (h.build_hasher).seed = 0 ∧
    (h.build_hasher).custom_secret = none :=
  ⟨rfl, rfl, rfl, rfl⟩

end CustomXxh3
